import Mathlib

/-!
Shallow embedding of the access-control functions defined in
`supabase/migrations/20260104163134_initial_schema.sql` (schema `system`).

Tables are modelled as Lean lists of rows; UUIDs are modelled as `Nat`;
nullable columns are `Option`-valued.  Each PL/pgSQL function is translated
into an executable Lean function over those lists; a call that can raise a
PostgreSQL error returns `Except PgError`:

* `has_object_permission`, `has_field_permission`, `get_visible_fields`
  (profile-based CRUD / field-level security, with the `auth.uid()` guard),
* `is_role_above`, `is_subordinate_of` (the role-hierarchy queries: both
  declare a parameter named `parent_role_id` while their recursive query
  also has a `parent_role_id` column of `system.roles` / of the `role_tree`
  CTE in scope and references that name unqualified, so under PL/pgSQL's
  default name resolution, `plpgsql.variable_conflict = error` — the
  default since PostgreSQL 9.0 — every call raises `column reference
  "parent_role_id" is ambiguous`, SQLSTATE 42702, when the statement is
  prepared, before any row is read; both calls are therefore embedded as
  raising `PgError.ambiguousColumn "parent_role_id"` unconditionally),
* `can_access_via_role`, `has_sharing_rule_access`, `has_manual_share`
  (record-level sharing; the first two propagate the error above exactly on
  the paths that reach the broken hierarchy queries, since PL/pgSQL
  prepares statements lazily and `AND` / `OR` / `CASE`-style branching in
  the modelled queries short-circuits),
* `updateRoleParent` (the write path for `system.roles.parent_role_id`,
  guarded by the table's `CHECK (role_id != parent_role_id)` constraint and
  the self-referencing foreign key).

Timestamp and purely descriptive columns (names, descriptions,
`created_at`, …) play no part in any of the translated logic and are
omitted from the row structures.
-/

namespace RawSystem

/-- Row of `system.roles`.  `parent_role_id` is nullable and
self-referencing; `level` is informational and unused by the hierarchy
walks, so it is omitted. -/
structure Role where
  role_id : Nat
  org_id : Nat
  parent_role_id : Option Nat
  deriving DecidableEq, Repr

/-- Row of `system.users` (the columns the permission functions read). -/
structure UserRow where
  user_id : Nat
  org_id : Nat
  profile_id : Nat
  role_id : Option Nat
  deriving DecidableEq, Repr

/-- Row of `system.profile_object_permissions`. -/
structure OppRow where
  profile_id : Nat
  object_name : String
  can_create : Bool
  can_read : Bool
  can_update : Bool
  can_delete : Bool
  deriving DecidableEq, Repr

/-- Row of `system.profile_field_permissions`. -/
structure FppRow where
  profile_id : Nat
  object_name : String
  field_name : String
  can_read : Bool
  can_edit : Bool
  deriving DecidableEq, Repr

/-- Row of `system.sharing_rules` (the columns the sharing functions read;
`rule_name`, `rule_type`, `criteria` and `owner_role_id` are never consulted
by `has_sharing_rule_access`). -/
structure SharingRule where
  org_id : Nat
  object_name : String
  shared_to_role_id : Option Nat
  include_subordinates : Bool
  access_level : String
  is_active : Bool
  deriving DecidableEq, Repr

/-- Row of `system.manual_shares`. -/
structure ManualShare where
  org_id : Nat
  object_name : String
  record_id : Nat
  shared_by_user_id : Nat
  shared_to_user_id : Nat
  access_level : String
  deriving DecidableEq, Repr

/-- The guard `IF checking_user_id != auth.uid() THEN RETURN FALSE` at the
top of `has_object_permission`, `has_field_permission` and
`get_visible_fields`.  `auth.uid()` is nullable; when it is SQL `NULL` the
inequality evaluates to `NULL`, the `IF` branch is not taken and execution
falls through, so the guard fires exactly when an authenticated uid exists
and differs from `checking_user_id`. -/
def authGuardFails (authUid : Option Nat) (checking_user_id : Nat) : Bool :=
  match authUid with
  | none => false
  | some u => checking_user_id != u

/-- The lookup `SELECT profile_id INTO user_profile_id FROM system.users
WHERE user_id = checking_user_id` (first matching row, `NULL` when none). -/
def lookupProfile (users : List UserRow) (checking_user_id : Nat) : Option Nat :=
  (users.find? (fun u => u.user_id == checking_user_id)).map (fun u => u.profile_id)

/-- Embedding of `system.has_object_permission(checking_user_id,
object_name, permission_type)`: the `auth.uid()` guard, the profile lookup
(`NULL` profile denies), then `EXISTS` over
`system.profile_object_permissions` matching profile, object and the
requested permission flag. -/
def has_object_permission (authUid : Option Nat) (users : List UserRow)
    (opps : List OppRow) (checking_user_id : Nat)
    (object_name permission_type : String) : Bool :=
  if authGuardFails authUid checking_user_id then false
  else
    match lookupProfile users checking_user_id with
    | none => false
    | some user_profile_id =>
      opps.any (fun p =>
        p.profile_id == user_profile_id && p.object_name == object_name &&
          ((permission_type == "create" && p.can_create) ||
           (permission_type == "read" && p.can_read) ||
           (permission_type == "update" && p.can_update) ||
           (permission_type == "delete" && p.can_delete)))

/-- Embedding of `system.has_field_permission(checking_user_id,
object_name, field_name, permission_type)`. -/
def has_field_permission (authUid : Option Nat) (users : List UserRow)
    (fpps : List FppRow) (checking_user_id : Nat)
    (object_name field_name permission_type : String) : Bool :=
  if authGuardFails authUid checking_user_id then false
  else
    match lookupProfile users checking_user_id with
    | none => false
    | some user_profile_id =>
      fpps.any (fun p =>
        p.profile_id == user_profile_id && p.object_name == object_name &&
          p.field_name == field_name &&
          ((permission_type == "read" && p.can_read) ||
           (permission_type == "edit" && p.can_edit)))

/-- Embedding of `system.get_visible_fields(checking_user_id, object_name)`:
the guard and the `NULL`-profile case return the empty array, otherwise the
result is the array of field names whose row has `can_read = true`. -/
def get_visible_fields (authUid : Option Nat) (users : List UserRow)
    (fpps : List FppRow) (checking_user_id : Nat)
    (object_name : String) : List String :=
  if authGuardFails authUid checking_user_id then []
  else
    match lookupProfile users checking_user_id with
    | none => []
    | some user_profile_id =>
      (fpps.filter (fun p =>
        p.profile_id == user_profile_id && p.object_name == object_name &&
          p.can_read)).map (fun p => p.field_name)

/-- Embedding of `system.has_manual_share(checking_user_id, record_id,
object_name)`: `EXISTS` over `system.manual_shares` matching grantee,
record and object.  The row's `access_level` (and `org_id`,
`shared_by_user_id`) are not consulted. -/
def has_manual_share (shares : List ManualShare) (checking_user_id : Nat)
    (record_id : Nat) (object_name : String) : Bool :=
  shares.any (fun ms =>
    ms.shared_to_user_id == checking_user_id &&
      ms.record_id == record_id && ms.object_name == object_name)

/-- Error raised by PostgreSQL when an unqualified name in a statement of a
PL/pgSQL function could denote either a function variable/parameter or a
table (or CTE) column in scope.  Under the default name-resolution setting,
`plpgsql.variable_conflict = error`, the statement fails with
`column reference "<name>" is ambiguous`, SQLSTATE 42702, when the
statement is first prepared for execution — before any row is read and
regardless of the arguments' values. -/
inductive PgError where
  | ambiguousColumn (name : String)
  deriving DecidableEq, Repr

/-- Outcome of calling a PL/pgSQL function: a returned value, or a raised
error. -/
abbrev PgResult (α : Type) := Except PgError α

/-- Embedding of `system.is_role_above(parent_role_id, child_role_id)`.
The body is one statement, `RETURN EXISTS (WITH RECURSIVE role_tree AS
(SELECT role_id, parent_role_id FROM system.roles WHERE role_id =
child_role_id UNION ALL ...) SELECT 1 FROM role_tree WHERE role_id =
parent_role_id)`.  The unqualified `parent_role_id` in the seed query's
select list (the `system.roles` column vs. the function parameter) and in
the outer `WHERE` (the `role_tree` column vs. the parameter) is ambiguous,
so preparing the statement raises SQLSTATE 42702 on every call: the
function never reads a row and never returns a boolean.  The `roles` table
argument and both id arguments are therefore never consulted. -/
def is_role_above (roles : List Role)
    (parent_role_id child_role_id : Nat) : PgResult Bool :=
  Except.error (PgError.ambiguousColumn "parent_role_id")

/-- Embedding of `system.is_subordinate_of(child_role_id,
parent_role_id)`.  Its single statement has the same collision twice — the
seed query `SELECT role_id, parent_role_id FROM system.roles WHERE role_id
= parent_role_id` references `parent_role_id` unqualified in both the
select list and the `WHERE`, where it can denote the `system.roles` column
or the function parameter — so every call raises SQLSTATE 42702 before
reading any row.  The `parent_role_id` argument is a nullable uuid (it is
fed `sr.shared_to_role_id` by `has_sharing_rule_access`), hence
`Option Nat`; like all the arguments it is never consulted. -/
def is_subordinate_of (roles : List Role) (child_role_id : Nat)
    (parent_role_id : Option Nat) : PgResult Bool :=
  Except.error (PgError.ambiguousColumn "parent_role_id")

/-- Embedding of `system.can_access_via_role(checking_user_id,
record_owner_id)`: immediate `TRUE` for the owner, then the two role
lookups (`NULL` on either side denies), then `is_role_above`.  The
function's own statements qualify or avoid every colliding name, and
PL/pgSQL prepares statements lazily, so the owner and `NULL`-role paths
return normally; only the final path, which actually calls the broken
`is_role_above`, raises. -/
def can_access_via_role (users : List UserRow) (roles : List Role)
    (checking_user_id record_owner_id : Nat) : PgResult Bool :=
  if checking_user_id == record_owner_id then Except.ok true
  else
    let checking_role :=
      (users.find? (fun u => u.user_id == checking_user_id)).bind
        (fun u => u.role_id)
    let owner_role :=
      (users.find? (fun u => u.user_id == record_owner_id)).bind
        (fun u => u.role_id)
    match checking_role, owner_role with
    | some c, some o => is_role_above roles c o
    | _, _ => Except.ok false

/-- Evaluation of one `system.sharing_rules` row under the `WHERE` clause
of `has_sharing_rule_access`: the rule must belong to the user's org and
the requested object and be active, and then either `shared_to_role_id`
equals the user's role, or `include_subordinates` is true and
`is_subordinate_of(user_role_id, sr.shared_to_role_id)` holds.  The `OR`
and `AND` are modelled as evaluating left to right and short-circuiting,
so the call into the broken `is_subordinate_of` — which raises — happens
exactly when the direct match fails and `include_subordinates` is true.
The row's `access_level` is never consulted. -/
def ruleGrants (roles : List Role) (userRole userOrg : Nat)
    (object_name : String) (sr : SharingRule) : PgResult Bool :=
  if sr.org_id == userOrg && sr.object_name == object_name && sr.is_active then
    if sr.shared_to_role_id == some userRole then Except.ok true
    else if sr.include_subordinates then
      is_subordinate_of roles userRole sr.shared_to_role_id
    else Except.ok false
  else Except.ok false

/-- `EXISTS` over rows whose individual evaluation may raise: scan the
rows in order, answer true at the first row evaluating to true, propagate
the first raised error, and answer false when every row evaluates to
false. -/
def existsOpt (f : α → PgResult Bool) : List α → PgResult Bool
  | [] => Except.ok false
  | x :: xs =>
    match f x with
    | Except.ok true => Except.ok true
    | Except.ok false => existsOpt f xs
    | Except.error e => Except.error e

/-- Embedding of `system.has_sharing_rule_access(checking_user_id,
record_owner_id, object_name)`: look up the user's role and org (`NULL`
role denies), then `EXISTS` over `system.sharing_rules`.  The function's
own statements qualify every colliding column, so it raises only by
propagation out of `is_subordinate_of`.  The `record_owner_id` parameter
is declared by the SQL function but never read by its body. -/
def has_sharing_rule_access (users : List UserRow) (roles : List Role)
    (rules : List SharingRule) (checking_user_id record_owner_id : Nat)
    (object_name : String) : PgResult Bool :=
  match users.find? (fun u => u.user_id == checking_user_id) with
  | none => Except.ok false
  | some u =>
    match u.role_id with
    | none => Except.ok false
    | some user_role_id =>
      existsOpt (ruleGrants roles user_role_id u.org_id object_name) rules

/-- The `CHECK (role_id != parent_role_id)` constraint on `system.roles`;
a `NULL` parent makes the condition `NULL`, which a SQL `CHECK` accepts. -/
def roleCheckOk (r : Role) : Bool :=
  match r.parent_role_id with
  | none => true
  | some p => p != r.role_id

/-- The self-referencing foreign key
`parent_role_id REFERENCES system.roles(role_id)`. -/
def roleFkOk (roles : List Role) (r : Role) : Bool :=
  match r.parent_role_id with
  | none => true
  | some p => roles.any (fun s => s.role_id == p)

/-- A `system.roles` table state that satisfies the table's declared
row-level constraints. -/
def validRoles (roles : List Role) : Bool :=
  roles.all (fun r => roleCheckOk r && roleFkOk roles r)

/-- The write path for re-parenting a role: `UPDATE system.roles SET
parent_role_id = newParent WHERE role_id = rid`, committed only if the
resulting state satisfies the table's declared constraints (the `CHECK`
and the self-referencing foreign key — the schema declares no trigger or
other mechanism on `system.roles`); otherwise the statement fails and
nothing is written. -/
def reparent (roles : List Role) (rid : Nat) (newParent : Option Nat) :
    List Role :=
  roles.map (fun r =>
    if r.role_id == rid then { r with parent_role_id := newParent } else r)

/-- The write path described above: commit `reparent` only if the new state
passes the declared constraints. -/
def updateRoleParent (roles : List Role) (rid : Nat) (newParent : Option Nat) :
    Option (List Role) :=
  if validRoles (reparent roles rid newParent) then
    some (reparent roles rid newParent)
  else none

/-- Edge relation of the stored parent graph: `parentRel roles x y` holds
when some row has `role_id = x` and `parent_role_id = y`. -/
def parentRel (roles : List Role) (x y : Nat) : Prop :=
  ∃ r ∈ roles, r.role_id = x ∧ r.parent_role_id = some y

/-- The stored parent graph has no (directed) cycle. -/
def Acyclic (roles : List Role) : Prop :=
  ∀ x, ¬ Relation.TransGen (parentRel roles) x x

/-- Rewrite a sharing rule's stored `access_level`. -/
def setRuleLevel (lvl : String) (sr : SharingRule) : SharingRule :=
  { sr with access_level := lvl }

/-- Rewrite a manual share's stored `access_level`. -/
def setShareLevel (lvl : String) (ms : ManualShare) : ManualShare :=
  { ms with access_level := lvl }

/-- C1.  Deny-by-default for permission lookups: when the checking user's
profile (the one `has_object_permission` / `has_field_permission` look up
in `system.users`) has no `profile_object_permissions` row for the given
object, `has_object_permission` returns false for every permission type
(in particular all four of create/read/update/delete); and when it has no
`profile_field_permissions` row for the given (object, field),
`has_field_permission` returns false for every mode (in particular both
read and edit). -/
theorem claim1_deny_by_default (authUid : Option Nat) (users : List UserRow)
    (opps : List OppRow) (fpps : List FppRow) (checking : Nat)
    (obj fld : String) (p : Nat)
    (hprof : lookupProfile users checking = some p)
    (hno : ∀ q ∈ opps, ¬(q.profile_id = p ∧ q.object_name = obj))
    (hnof : ∀ q ∈ fpps,
      ¬(q.profile_id = p ∧ q.object_name = obj ∧ q.field_name = fld)) :
    (∀ ptype, has_object_permission authUid users opps checking obj ptype
        = false) ∧
    (∀ ptype, has_field_permission authUid users fpps checking obj fld ptype
        = false) := by
  constructor
  · intro ptype
    by_cases hg : authGuardFails authUid checking = true
    · simp [has_object_permission, hg]
    · rw [Bool.not_eq_true] at hg
      simp only [has_object_permission, hg, hprof, if_false, Bool.false_eq_true]
      rw [List.any_eq_false]
      intro q hq
      simp only [Bool.and_eq_true, beq_iff_eq, not_and]
      rintro ⟨h1, h2⟩ _
      exact hno q hq ⟨h1, h2⟩
  · intro ptype
    by_cases hg : authGuardFails authUid checking = true
    · simp [has_field_permission, hg]
    · rw [Bool.not_eq_true] at hg
      simp only [has_field_permission, hg, hprof, if_false, Bool.false_eq_true]
      rw [List.any_eq_false]
      intro q hq
      simp only [Bool.and_eq_true, beq_iff_eq, not_and]
      rintro ⟨⟨h1, h2⟩, h3⟩ _
      exact hnof q hq ⟨h1, h2, h3⟩

/-- Witness for C1 at a concrete state: one user (id 1, profile 10), a
permission row for a different object and a field row for a different
field, so both lookups deny for object `invoices` / field `amount`. -/
theorem claim1_deny_by_default_witness :
    (∀ ptype, has_object_permission (some 1)
        [⟨1, 1, 10, none⟩] [⟨10, "accounts", true, true, true, true⟩]
        1 "invoices" ptype = false) ∧
    (∀ ptype, has_field_permission (some 1)
        [⟨1, 1, 10, none⟩] [⟨10, "invoices", "total", true, true⟩]
        1 "invoices" "amount" ptype = false) :=
  claim1_deny_by_default (some 1) [⟨1, 1, 10, none⟩]
    [⟨10, "accounts", true, true, true, true⟩]
    [⟨10, "invoices", "total", true, true⟩] 1 "invoices" "amount" 10
    (by decide) (by decide) (by decide)

/-- Re-parenting never changes any row's `role_id`. -/
lemma reparent_upd_role_id (rid : Nat) (np : Option Nat) (r : Role) :
    (if r.role_id == rid then { r with parent_role_id := np } else r).role_id
      = r.role_id := by
  split <;> rfl

/-- An edge of the parent graph whose source is not the re-parented role
survives re-parenting. -/
lemma parentRel_reparent_of_ne (roles : List Role) (rid : Nat)
    (np : Option Nat) (x y : Nat) (hx : x ≠ rid) (h : parentRel roles x y) :
    parentRel (reparent roles rid np) x y := by
  obtain ⟨r, hr, hid, hp⟩ := h
  have hne : (r.role_id == rid) = false := by
    simp [hid, hx]
  refine ⟨r, ?_, hid, hp⟩
  rw [reparent, List.mem_map]
  exact ⟨r, hr, by rw [hne]; rfl⟩

/-- A parent-pointer path ending at the re-parented role survives
re-parenting, provided the original graph has no cycle through that
role (so the path's edge sources never equal it). -/
lemma transGen_parentRel_reparent (roles : List Role) (rid : Nat)
    (np : Option Nat)
    (hnc : ¬ Relation.TransGen (parentRel roles) rid rid) (x : Nat)
    (hx : Relation.TransGen (parentRel roles) x rid) :
    Relation.TransGen (parentRel (reparent roles rid np)) x rid := by
  induction hx using Relation.TransGen.head_induction_on with
  | base h =>
    refine Relation.TransGen.single
      (parentRel_reparent_of_ne roles rid np _ _ ?_ h)
    intro he
    rw [he] at h
    exact hnc (Relation.TransGen.single h)
  | ih h' h hih =>
    refine Relation.TransGen.head
      (parentRel_reparent_of_ne roles rid np _ _ ?_ h') hih
    intro he
    rw [he] at h'
    exact hnc (Relation.TransGen.head h' h)

/-- C2 counterexample: in the state where role 2's parent is role 1 (so 2
is in 1's descendant set), the update that sets role 1's parent to role 2
passes every constraint the schema declares on `system.roles` and is
committed, leaving a stored parent graph with a cycle — nothing on the
write path rejects it. -/
theorem claim2_counterexample :
    updateRoleParent [⟨1, 1, none⟩, ⟨2, 1, some 1⟩] 1 (some 2)
        = some [⟨1, 1, some 2⟩, ⟨2, 1, some 1⟩] ∧
    ¬ Acyclic [⟨1, 1, some 2⟩, ⟨2, 1, some 1⟩] := by
  constructor
  · rfl
  · intro hA
    have e12 : parentRel [⟨1, 1, some 2⟩, ⟨2, 1, some 1⟩] 1 2 :=
      ⟨⟨1, 1, some 2⟩, by simp, rfl, rfl⟩
    have e21 : parentRel [⟨1, 1, some 2⟩, ⟨2, 1, some 1⟩] 2 1 :=
      ⟨⟨2, 1, some 1⟩, by simp, rfl, rfl⟩
    exact hA 1 (Relation.TransGen.tail (Relation.TransGen.single e12) e21)

/-- C2 (amended).  The only write-path enforcement on the roles table is
the row-local `CHECK (role_id != parent_role_id)` (plus the foreign key):
setting role `rid`'s parent to `rid` itself is rejected, but setting it to
any other existing role `q` is accepted — even when `q` lies in `rid`'s
current descendant set — and when `q` is such a strict descendant the
committed state's parent graph is cyclic. -/
theorem claim2_only_self_parent_rejected (roles : List Role) (rid q : Nat)
    (r0 s0 : Role) (hvalid : validRoles roles = true)
    (hr0 : r0 ∈ roles) (hr0id : r0.role_id = rid)
    (hs0 : s0 ∈ roles) (hs0id : s0.role_id = q) (hq : q ≠ rid)
    (hdesc : Relation.TransGen (parentRel roles) q rid)
    (hnc : ¬ Relation.TransGen (parentRel roles) rid rid) :
    updateRoleParent roles rid (some q) = some (reparent roles rid (some q)) ∧
    ¬ Acyclic (reparent roles rid (some q)) ∧
    updateRoleParent roles rid (some rid) = none := by
  have hvalid' : validRoles (reparent roles rid (some q)) = true := by
    rw [validRoles, List.all_eq_true]
    intro r' hr'
    rw [reparent, List.mem_map] at hr'
    obtain ⟨r, hr, rfl⟩ := hr'
    rw [Bool.and_eq_true]
    have hall := List.all_eq_true.mp hvalid r hr
    rw [Bool.and_eq_true] at hall
    by_cases hid : (r.role_id == rid) = true
    · rw [if_pos hid]
      have hrid : r.role_id = rid := by simpa using hid
      constructor
      · simp [roleCheckOk, hrid, hq]
      · rw [roleFkOk]
        rw [List.any_eq_true]
        refine ⟨if s0.role_id == rid then { s0 with parent_role_id := some q }
          else s0, ?_, ?_⟩
        · rw [reparent, List.mem_map]; exact ⟨s0, hs0, rfl⟩
        · rw [reparent_upd_role_id, hs0id]; simp
    · rw [if_neg hid]
      refine ⟨hall.1, ?_⟩
      rcases hfk : r.parent_role_id with _ | p
      · simp [roleFkOk, hfk]
      · have := hall.2
        rw [roleFkOk, hfk] at this ⊢
        rw [List.any_eq_true] at this ⊢
        obtain ⟨t, ht, htp⟩ := this
        refine ⟨if t.role_id == rid then { t with parent_role_id := some q }
          else t, ?_, ?_⟩
        · rw [reparent, List.mem_map]; exact ⟨t, ht, rfl⟩
        · rw [reparent_upd_role_id]; exact htp
  have hedge : parentRel (reparent roles rid (some q)) rid q := by
    refine ⟨{ r0 with parent_role_id := some q }, ?_, hr0id, rfl⟩
    rw [reparent, List.mem_map]
    exact ⟨r0, hr0, by rw [if_pos (by simp [hr0id])]⟩
  refine ⟨by simp [updateRoleParent, hvalid'], ?_, ?_⟩
  · intro hA
    exact hA rid (Relation.TransGen.head hedge
      (transGen_parentRel_reparent roles rid (some q) hnc q hdesc))
  · have hbad : validRoles (reparent roles rid (some rid)) = false := by
      rw [validRoles]
      rw [List.all_eq_false]
      refine ⟨{ r0 with parent_role_id := some rid }, ?_, ?_⟩
      · rw [reparent, List.mem_map]
        exact ⟨r0, hr0, by rw [if_pos (by simp [hr0id])]⟩
      · simp [roleCheckOk, hr0id]
    simp [updateRoleParent, hbad]

/-- Witness for C2 (amended): the concrete two-role state of the
counterexample, with role 2 a direct descendant of role 1. -/
theorem claim2_only_self_parent_rejected_witness :
    updateRoleParent [⟨1, 1, none⟩, ⟨2, 1, some 1⟩] 1 (some 2)
        = some (reparent [⟨1, 1, none⟩, ⟨2, 1, some 1⟩] 1 (some 2)) ∧
    ¬ Acyclic (reparent [⟨1, 1, none⟩, ⟨2, 1, some 1⟩] 1 (some 2)) ∧
    updateRoleParent [⟨1, 1, none⟩, ⟨2, 1, some 1⟩] 1 (some 1) = none := by
  refine claim2_only_self_parent_rejected [⟨1, 1, none⟩, ⟨2, 1, some 1⟩]
    1 2 ⟨1, 1, none⟩ ⟨2, 1, some 1⟩ (by decide) (by simp) rfl (by simp) rfl
    (by decide) (Relation.TransGen.single ⟨⟨2, 1, some 1⟩, by simp, rfl, rfl⟩)
    ?_
  intro h
  rw [Relation.TransGen.head'_iff] at h
  obtain ⟨b, ⟨r, hr, hid, hp⟩, _⟩ := h
  simp only [List.mem_cons, List.mem_singleton] at hr
  rcases hr with rfl | rfl | h
  · exact Option.noConfusion hp
  · exact absurd hid (by decide)
  · exact absurd h (List.not_mem_nil _)

/-- C7.  Ownership always grants record visibility: whenever the checking
user id equals the record owner id, `can_access_via_role` returns true
immediately — before any role lookup, so the broken `is_role_above` is
never reached — for every state of the users and roles tables (hence
independently of roles, org-wide defaults, sharing rules and manual
shares, none of which it even consults on this path). -/
theorem claim7_owner_always_granted (users : List UserRow)
    (roles : List Role) (checking owner : Nat) (h : checking = owner) :
    can_access_via_role users roles checking owner = Except.ok true := by
  simp [can_access_via_role, h]

/-- Witness for C7: the owner sees their record even with empty tables. -/
theorem claim7_owner_always_granted_witness :
    can_access_via_role [] [] 5 5 = Except.ok true :=
  claim7_owner_always_granted [] [] 5 5 rfl

/-- C9.  Manual shares are record-specific: a `manual_shares` row for
(object, record `r1`, grantee `u`) makes `has_manual_share` true for
`r1`, while for any record `r2` that has no row for (object, `r2`, `u`)
`has_manual_share` returns false, whatever other rows (for other records,
grantees or objects) the table holds. -/
theorem claim9_manual_share_record_specific (shares : List ManualShare)
    (u r1 r2 : Nat) (obj : String) (ms : ManualShare) (hms : ms ∈ shares)
    (hu : ms.shared_to_user_id = u) (hr : ms.record_id = r1)
    (ho : ms.object_name = obj)
    (hno : ∀ q ∈ shares,
      ¬(q.shared_to_user_id = u ∧ q.record_id = r2 ∧ q.object_name = obj)) :
    has_manual_share shares u r1 obj = true ∧
    has_manual_share shares u r2 obj = false := by
  constructor
  · rw [has_manual_share, List.any_eq_true]
    exact ⟨ms, hms, by simp [hu, hr, ho]⟩
  · rw [has_manual_share, List.any_eq_false]
    intro q hq
    simp only [Bool.and_eq_true, beq_iff_eq, not_and]
    rintro ⟨h1, h2⟩ h3
    exact hno q hq ⟨h1, h2, h3⟩

/-- Witness for C9: one share of record 100 for user 7 grants record 100
and does not grant record 200. -/
theorem claim9_manual_share_record_specific_witness :
    has_manual_share [⟨1, "accounts", 100, 2, 7, "read_write"⟩] 7 100 "accounts"
        = true ∧
    has_manual_share [⟨1, "accounts", 100, 2, 7, "read_write"⟩] 7 200 "accounts"
        = false :=
  claim9_manual_share_record_specific
    [⟨1, "accounts", 100, 2, 7, "read_write"⟩] 7 100 200 "accounts"
    ⟨1, "accounts", 100, 2, 7, "read_write"⟩ (by decide) rfl rfl rfl (by decide)

/-- C10.  Implicit self-caller guard: when an authenticated uid exists and
the queried `checking_user_id` differs from it, `has_object_permission`
and `has_field_permission` return false and `get_visible_fields` returns
the empty array, for every state of the users and permission tables. -/
theorem claim10_self_caller_guard (users : List UserRow) (opps : List OppRow)
    (fpps : List FppRow) (a checking : Nat) (obj fld ptype : String)
    (hne : checking ≠ a) :
    has_object_permission (some a) users opps checking obj ptype = false ∧
    has_field_permission (some a) users fpps checking obj fld ptype = false ∧
    get_visible_fields (some a) users fpps checking obj = [] := by
  have hg : authGuardFails (some a) checking = true := by
    simp [authGuardFails, hne]
  refine ⟨?_, ?_, ?_⟩
  · simp [has_object_permission, hg]
  · simp [has_field_permission, hg]
  · simp [get_visible_fields, hg]

/-- Rewriting a rule's `access_level` changes nothing `ruleGrants` reads. -/
lemma ruleGrants_setRuleLevel (roles : List Role)
    (userRole userOrg : Nat) (obj lvl : String) (sr : SharingRule) :
    ruleGrants roles userRole userOrg obj (setRuleLevel lvl sr)
      = ruleGrants roles userRole userOrg obj sr := rfl

/-- The scan of `existsOpt` over a mapped row list is the scan of the
composed evaluation. -/
lemma existsOpt_map (f : β → PgResult Bool) (g : α → β) (xs : List α) :
    existsOpt f (xs.map g) = existsOpt (fun x => f (g x)) xs := by
  induction xs with
  | nil => rfl
  | cons x xs ih =>
    simp only [List.map_cons, existsOpt]
    cases f (g x) with
    | ok b =>
      cases b with
      | false => exact ih
      | true => rfl
    | error e => rfl

/-- C5 counterexample to "rules whose access_level is only read do not
grant read_write access": on a state whose single active sharing rule
targets the user's role directly (so the broken subordinate arm is never
evaluated) and carries `access_level = 'read'`, `has_sharing_rule_access`
— the only output of sharing-rule evaluation — returns `true`, exactly the
same answer as when the rule carries `read_write`; the stored level makes
no difference to what is granted. -/
theorem claim5_counterexample :
    has_sharing_rule_access [⟨1, 1, 10, some 5⟩] [⟨5, 1, none⟩]
        [⟨1, "accounts", some 5, false, "read", true⟩] 1 9 "accounts"
        = Except.ok true ∧
    has_sharing_rule_access [⟨1, 1, 10, some 5⟩] [⟨5, 1, none⟩]
        [⟨1, "accounts", some 5, false, "read_write", true⟩] 1 9 "accounts"
        = Except.ok true := by
  constructor <;> rfl

/-- C5 (amended).  `has_sharing_rule_access` never consults the stored
`access_level` of any rule: rewriting every rule's access level to an
arbitrary value leaves its outcome — returned boolean or raised error —
unchanged, for every state.  So no union of access levels (`read_write`
dominating `read`) takes place anywhere, and a rule with level `read`
grants exactly whatever the same rule with level `read_write` grants. -/
theorem claim5_access_level_ignored (users : List UserRow)
    (roles : List Role) (rules : List SharingRule)
    (checking owner : Nat) (obj lvl : String) :
    has_sharing_rule_access users roles (rules.map (setRuleLevel lvl))
        checking owner obj
      = has_sharing_rule_access users roles rules checking owner obj := by
  unfold has_sharing_rule_access
  cases users.find? (fun u => u.user_id == checking) with
  | none => rfl
  | some u =>
    cases hr : u.role_id with
    | none => simp [hr]
    | some user_role_id =>
      simp only [hr, existsOpt_map, ruleGrants_setRuleLevel]

/-- Rewriting a manual share's `access_level` changes nothing the
`has_manual_share` row predicate reads. -/
lemma manualShareMatch_setShareLevel (u r : Nat) (obj lvl : String)
    (ms : ManualShare) :
    ((setShareLevel lvl ms).shared_to_user_id == u &&
        (setShareLevel lvl ms).record_id == r &&
        (setShareLevel lvl ms).object_name == obj)
      = (ms.shared_to_user_id == u && ms.record_id == r &&
        ms.object_name == obj) := rfl

/-- C6 counterexample to "a manual share whose stored access_level is only
read does not grant read_write access": a share row for (accounts, record
100, user 7) with `access_level = 'read'` makes `has_manual_share` — the
only output of manual-share evaluation — return `true`, the very same
answer as with `read_write`; the stored level makes no difference to what
is granted. -/
theorem claim6_counterexample :
    has_manual_share [⟨1, "accounts", 100, 2, 7, "read"⟩] 7 100 "accounts"
        = true ∧
    has_manual_share [⟨1, "accounts", 100, 2, 7, "read_write"⟩] 7 100 "accounts"
        = true := by
  constructor <;> rfl

/-- C6 (amended).  A `manual_shares` row keyed by (object, record,
grantee) makes `has_manual_share` answer `true` regardless of its stored
`access_level`: the function returns one boolean that does not consult the
level, and rewriting every share's level to an arbitrary value leaves its
result unchanged. -/
theorem claim6_manual_share_level_ignored (shares : List ManualShare)
    (u r : Nat) (obj : String) (ms : ManualShare) (hms : ms ∈ shares)
    (hu : ms.shared_to_user_id = u) (hr : ms.record_id = r)
    (ho : ms.object_name = obj) :
    has_manual_share shares u r obj = true ∧
    (∀ lvl, has_manual_share (shares.map (setShareLevel lvl)) u r obj
        = has_manual_share shares u r obj) := by
  constructor
  · rw [has_manual_share, List.any_eq_true]
    exact ⟨ms, hms, by simp [hu, hr, ho]⟩
  · intro lvl
    simp only [has_manual_share, List.any_map, Function.comp_def,
      manualShareMatch_setShareLevel]

/-- Witness for C6 (amended) at a concrete read-level share row. -/
theorem claim6_manual_share_level_ignored_witness :
    has_manual_share [⟨1, "accounts", 100, 2, 7, "read"⟩] 7 100 "accounts"
        = true ∧
    (∀ lvl, has_manual_share
        ([⟨1, "accounts", 100, 2, 7, "read"⟩].map (setShareLevel lvl))
        7 100 "accounts"
      = has_manual_share [⟨1, "accounts", 100, 2, 7, "read"⟩] 7 100 "accounts") :=
  claim6_manual_share_level_ignored [⟨1, "accounts", 100, 2, 7, "read"⟩]
    7 100 "accounts" ⟨1, "accounts", 100, 2, 7, "read"⟩
    (by decide) rfl rfl rfl

/-- C3 counterexample: for a table holding role 1, the query
`is_role_above(1, 1)` does not return false as the claim states (nor any
boolean): it raises `column reference "parent_role_id" is ambiguous`,
because the function parameter `parent_role_id` collides with the
`system.roles` / `role_tree` column of that name in the query's
unqualified references. -/
theorem claim3_counterexample :
    is_role_above [⟨1, 1, none⟩] 1 1
      = Except.error (PgError.ambiguousColumn "parent_role_id") := rfl

/-- C3 (amended).  The ancestor query exhibits neither the claimed
transitivity nor the claimed irreflexivity, because it never returns a
boolean at all: for every table state and every pair of role ids,
`is_role_above` raises `column reference "parent_role_id" is ambiguous`
(SQLSTATE 42702) while preparing its recursive query — the parameter name
`parent_role_id` shadows the column name — before reading any row. -/
theorem claim3_ancestor_query_always_errors (roles : List Role)
    (parent child : Nat) :
    is_role_above roles parent child
      = Except.error (PgError.ambiguousColumn "parent_role_id") := rfl

/-- C4 counterexample: the error the walk raises is not a data-integrity
report about a cycle — the very same `column reference "parent_role_id" is
ambiguous` error is raised on the corrupted cyclic state and on a healthy
acyclic state alike, so nothing about the stored cycle is detected or
surfaced. -/
theorem claim4_counterexample :
    is_role_above [⟨1, 1, some 2⟩, ⟨2, 1, some 1⟩] 7 1
        = Except.error (PgError.ambiguousColumn "parent_role_id") ∧
    is_role_above [⟨1, 1, none⟩, ⟨2, 1, some 1⟩] 7 1
        = Except.error (PgError.ambiguousColumn "parent_role_id") := ⟨rfl, rfl⟩

/-- C4 (amended).  On corrupted data containing a parent-pointer cycle no
unbounded walk occurs, but not for the reasons the claim gives: the walks
have no depth bound and no revisit detection (the recursive query uses
`UNION ALL` with no cap), and no data-integrity error for the cycle is
surfaced.  Instead both `is_role_above` and `is_subordinate_of` raise the
unconditional name-resolution error `column reference "parent_role_id" is
ambiguous` when their statement is prepared, before any row of the cyclic
graph is visited — the same outcome they have on healthy data. -/
theorem claim4_cycle_not_detected (roles : List Role) (parent child : Nat)
    (hcyc : ¬ Acyclic roles) :
    is_role_above roles parent child
        = Except.error (PgError.ambiguousColumn "parent_role_id") ∧
    is_subordinate_of roles child (some parent)
        = Except.error (PgError.ambiguousColumn "parent_role_id") :=
  ⟨rfl, rfl⟩

/-- Witness for C4 (amended) at the concrete two-role mutual-parent
state. -/
theorem claim4_cycle_not_detected_witness :
    is_role_above [⟨1, 1, some 2⟩, ⟨2, 1, some 1⟩] 99 1
        = Except.error (PgError.ambiguousColumn "parent_role_id") ∧
    is_subordinate_of [⟨1, 1, some 2⟩, ⟨2, 1, some 1⟩] 1 (some 99)
        = Except.error (PgError.ambiguousColumn "parent_role_id") :=
  claim4_cycle_not_detected [⟨1, 1, some 2⟩, ⟨2, 1, some 1⟩] 99 1
    (fun hA =>
      hA 1 (Relation.TransGen.tail
        (Relation.TransGen.single ⟨⟨1, 1, some 2⟩, by simp, rfl, rfl⟩)
        ⟨⟨2, 1, some 1⟩, by simp, rfl, rfl⟩))

/-- C8: evaluation at the failing input.  User 1 holds role 6, a strict
descendant of role 5; the single sharing rule is active for the user's org
and the object, targets role 5 and has `include_subordinates = true`.  The
direct match (role 6 = role 5) fails, so the `EXISTS` evaluates
`is_subordinate_of(6, 5)` — whose ambiguous `parent_role_id` reference
raises — and `has_sharing_rule_access` propagates
`column reference "parent_role_id" is ambiguous` instead of returning the
true that the claim (and the spec's subordinate expansion) describe. -/
theorem claim8_subordinate_rule_errors :
    has_sharing_rule_access [⟨1, 1, 10, some 6⟩]
        [⟨5, 1, none⟩, ⟨6, 1, some 5⟩]
        [⟨1, "accounts", some 5, true, "read", true⟩] 1 9 "accounts"
      = Except.error (PgError.ambiguousColumn "parent_role_id") := rfl

/-- Witness for C10: even a user holding every permission row is denied
when somebody else (auth uid 2) asks about them. -/
theorem claim10_self_caller_guard_witness :
    has_object_permission (some 2) [⟨1, 1, 10, none⟩]
        [⟨10, "accounts", true, true, true, true⟩] 1 "accounts" "read"
        = false ∧
    has_field_permission (some 2) [⟨1, 1, 10, none⟩]
        [⟨10, "accounts", "name", true, true⟩] 1 "accounts" "name" "read"
        = false ∧
    get_visible_fields (some 2) [⟨1, 1, 10, none⟩]
        [⟨10, "accounts", "name", true, true⟩] 1 "accounts" = [] :=
  claim10_self_caller_guard [⟨1, 1, 10, none⟩]
    [⟨10, "accounts", true, true, true, true⟩]
    [⟨10, "accounts", "name", true, true⟩] 2 1 "accounts" "name" "read"
    (by decide)

end RawSystem
